import Mathlib

/-!
Verification of the `sj2psi` package (file `sj2psi/__init__.py`) against its
natural-language specification.

The package computes percent-spliced-in (PSI) scores over a pandas DataFrame of
splice junctions.  We embed the DataFrame as a list of rows; pandas nullable
float cells are embedded as `Option ℚ` (a `none` is pandas `NaN`), and the
result of a pandas float division, which can also be `inf`, as `PdFloat`.

The embedding follows `get_psis` (lines 145-168 of the source) statement by
statement:

* lines 145-148: boolean-mask column selection produces the raw count where it
  meets the threshold and `NaN` elsewhere (`filteredCount`);
* lines 149-150: `Series.add` with no `fill_value`, which yields `NaN` whenever
  either operand is `NaN` (`seriesAdd`);
* line 151: `astype('float')` - our cells are already rationals;
* lines 159-166: for each of the two grouping keys, a groupby-sum of
  `total_filtered_reads` (pandas skips `NaN` in the sum and gives `0.0` for an
  all-`NaN` group, the `min_count=0` default), broadcast back onto every row of
  the group by `join` (a left join on the key, preserving row order), followed
  by the row-wise float division.

`get_psis` in the source mutates its argument: lines 145-151 assign columns of
the caller's frame in place; the grouping loop then rebinds the local name, so
the denominator and psi columns land only on the returned frame.  The Lean
`get_psis` therefore returns a pair: the first component is the caller-visible
frame after the call (the input rows with the three in-place derived columns),
the second is the returned frame.
-/

namespace Sj2psi

/-- Value of a pandas float cell: a number, `NaN`, or a signed infinity. -/
inductive PdFloat where
  | nan : PdFloat
  | posInf : PdFloat
  | negInf : PdFloat
  | num : ℚ → PdFloat
deriving DecidableEq

/-- Pandas float division of a nullable cell by a (non-null) float: `NaN`
divided by anything is `NaN`; division by zero gives `NaN` for a zero
numerator and a signed infinity otherwise. -/
def pdDiv (x : Option ℚ) (d : ℚ) : PdFloat :=
  match x with
  | none => PdFloat.nan
  | some q =>
    if d = 0 then
      if q = 0 then PdFloat.nan
      else if 0 < q then PdFloat.posInf
      else PdFloat.negInf
    else PdFloat.num (q / d)

/-- One input row of the splice-junction table, with the nine columns of
`COLUMN_NAMES` (source lines 5-8).  `intron_motif` is the already-translated
label and `annotated` the already-converted boolean, as produced by
`read_sj_out_tab`. -/
structure SJRow where
  chrom : String
  intron_start : Int
  intron_stop : Int
  strand : String
  intron_motif : String
  annotated : Bool
  unique_junction_reads : Nat
  multimap_junction_reads : Nat
  max_overhang : Nat
deriving DecidableEq

/-- The caller's row after the in-place assignments of source lines 145-151:
the original row plus the two filtered counts and their sum. -/
structure SJRowFiltered where
  base : SJRow
  multimap_junction_reads_filtered : Option Nat
  unique_junction_reads_filtered : Option Nat
  total_filtered_reads : Option ℚ
deriving DecidableEq

/-- A row of the returned frame: the filtered row plus the two group
denominators and the two psi scores (source lines 159-166). -/
structure SJRowPsi where
  filt : SJRowFiltered
  psi5_denominator : ℚ
  psi5 : PdFloat
  psi3_denominator : ℚ
  psi3 : PdFloat
deriving DecidableEq

/-- Lines 145-148: `sj.x[sj.x >= minimum]` assigned as a column keeps the
count where it meets the threshold and leaves `NaN` elsewhere.  The
threshold is a Python int and may be negative. -/
def filteredCount (c : Nat) (minimum : Int) : Option Nat :=
  if minimum ≤ (c : Int) then some c else none

/-- Lines 149-150: `Series.add` with no `fill_value`; the sum is `NaN`
whenever either operand is `NaN`. -/
def seriesAdd (a b : Option Nat) : Option Nat :=
  match a, b with
  | some x, some y => some (x + y)
  | _, _ => none

/-- The in-place column assignments of lines 145-151 applied to one row
(line 151 converts the total to float, here a rational). -/
def filterStep (min_unique min_multimap : Int) (r : SJRow) : SJRowFiltered :=
  { base := r
    multimap_junction_reads_filtered :=
      filteredCount r.multimap_junction_reads min_multimap
    unique_junction_reads_filtered :=
      filteredCount r.unique_junction_reads min_unique
    total_filtered_reads :=
      (seriesAdd (filteredCount r.multimap_junction_reads min_multimap)
        (filteredCount r.unique_junction_reads min_unique)).map
        (fun n => (n : ℚ)) }

/-- The caller's frame after the in-place part of `get_psis` (lines 145-151). -/
def addFilteredColumns (sj : List SJRow) (min_unique min_multimap : Int) :
    List SJRowFiltered :=
  sj.map (filterStep min_unique min_multimap)

/-- The 5' grouping key `['chrom', 'intron_start']` (line 155). -/
def key5 (r : SJRowFiltered) : String × Int := (r.base.chrom, r.base.intron_start)

/-- The 3' grouping key `['chrom', 'intron_stop']` (line 156). -/
def key3 (r : SJRowFiltered) : String × Int := (r.base.chrom, r.base.intron_stop)

/-- Line 161: `sj.groupby(groupby).total_filtered_reads.sum()` evaluated at one
group key: the sum of `total_filtered_reads` over the rows with that key,
skipping `NaN`; an all-`NaN` group sums to `0`. -/
def groupSum (key : SJRowFiltered → String × Int) (tbl : List SJRowFiltered)
    (k : String × Int) : ℚ :=
  ((tbl.filter fun r => decide (key r = k)).map
    (fun r => r.total_filtered_reads.getD 0)).sum

/-- One row of the returned frame: the `join` (lines 163-164) broadcasts each
group's sum onto its rows, and line 165 divides the row's total by it.  Both
loop iterations read the same `total_filtered_reads` column, so both are
computed from the same filtered frame. -/
def psiRow (m : List SJRowFiltered) (r : SJRowFiltered) : SJRowPsi :=
  { filt := r
    psi5_denominator := groupSum key5 m (key5 r)
    psi5 := pdDiv r.total_filtered_reads (groupSum key5 m (key5 r))
    psi3_denominator := groupSum key3 m (key3 r)
    psi3 := pdDiv r.total_filtered_reads (groupSum key3 m (key3 r)) }

/-- Lines 145-168 of the source.  First component: the caller-visible frame
after the call (mutated in place by lines 145-151).  Second component: the
returned frame, with one `SJRowPsi` per input row, in input order. -/
def get_psis (sj : List SJRow) (min_unique min_multimap : Int) :
    List SJRowFiltered × List SJRowPsi :=
  (addFilteredColumns sj min_unique min_multimap,
    (addFilteredColumns sj min_unique min_multimap).map
      (psiRow (addFilteredColumns sj min_unique min_multimap)))

/-- Comparison definition following the spec's words (step 2 of the PsiCalculator
algorithm): the sum treats a missing filtered count as 0 when the other is
present, and is missing only when both are (pandas `Series.add` with
`fill_value=0`).  The source at lines 149-150 omits `fill_value`; `seriesAdd`
above embeds the source. -/
def seriesAddSpec (a b : Option Nat) : Option Nat :=
  match a, b with
  | some x, some y => some (x + y)
  | some x, none => some x
  | none, some y => some y
  | none, none => none

/-- `filterStep` with the spec's sum semantics (`seriesAddSpec`); the
comparison counterpart of `filterStep`. -/
def filterStepSpec (min_unique min_multimap : Int) (r : SJRow) : SJRowFiltered :=
  { base := r
    multimap_junction_reads_filtered :=
      filteredCount r.multimap_junction_reads min_multimap
    unique_junction_reads_filtered :=
      filteredCount r.unique_junction_reads min_unique
    total_filtered_reads :=
      (seriesAddSpec (filteredCount r.multimap_junction_reads min_multimap)
        (filteredCount r.unique_junction_reads min_unique)).map
        (fun n => (n : ℚ)) }

/-- `get_psis` with the spec's sum semantics: identical to `get_psis` except
that `total_filtered_reads` follows `seriesAddSpec`.  Comparison definition
for the refinement claims about the worked example. -/
def get_psis_spec (sj : List SJRow) (min_unique min_multimap : Int) :
    List SJRowFiltered × List SJRowPsi :=
  (sj.map (filterStepSpec min_unique min_multimap),
    (sj.map (filterStepSpec min_unique min_multimap)).map
      (psiRow (sj.map (filterStepSpec min_unique min_multimap))))

/-- The input column names (source lines 5-8). -/
def COLUMN_NAMES : List String :=
  ["chrom", "intron_start", "intron_stop", "strand", "intron_motif",
    "annotated", "unique_junction_reads", "multimap_junction_reads",
    "max_overhang"]

/-- Column-level shadow of a pandas column assignment `sj[c] = ...`: an
existing column is overwritten in place, a new one is appended. -/
def assignColumn (cols : List String) (c : String) : List String :=
  if c ∈ cols then cols else cols ++ [c]

/-- Column-level shadow of `sj.join(s)` where `s` is a series named `c`:
pandas `DataFrame.join` raises `ValueError` when the frame already has a
column of that name (no suffix is passed at line 164); otherwise the column
is appended. -/
def joinColumn (cols : List String) (c : String) : Except String (List String) :=
  if c ∈ cols then Except.error ("columns overlap: " ++ c)
  else Except.ok (cols ++ [c])

/-- Column-level shadow of the in-place assignments of lines 145-151. -/
def get_psis_inplace_columns (cols : List String) : List String :=
  assignColumn
    (assignColumn (assignColumn cols "multimap_junction_reads_filtered")
      "unique_junction_reads_filtered")
    "total_filtered_reads"

/-- Column-level shadow of the whole of `get_psis` (lines 145-166), tracking
which columns the frame has; `set_index(..., drop=False)` and
`reset_index(drop=True)` leave the column list unchanged, so only the column
assignments and the two joins appear.  The result is the output column list,
or the error raised by a `join` whose column already exists. -/
def get_psis_columns (cols : List String) : Except String (List String) :=
  match joinColumn (get_psis_inplace_columns cols) "psi5_denominator" with
  | Except.error e => Except.error e
  | Except.ok cols2 =>
    match joinColumn (assignColumn cols2 "psi5") "psi3_denominator" with
    | Except.error e => Except.error e
    | Except.ok cols4 => Except.ok (assignColumn cols4 "psi3")

/-- The column list of the frame returned by a first application of
`get_psis` to a frame with the input schema. -/
def OUTPUT_COLUMN_NAMES : List String :=
  COLUMN_NAMES ++ ["multimap_junction_reads_filtered",
    "unique_junction_reads_filtered", "total_filtered_reads",
    "psi5_denominator", "psi5", "psi3_denominator", "psi3"]

/-- Source lines 11-25: translate the integer intron-motif code to its label.
A code outside 0-6 (including a negative one) falls through every branch and
the Python function returns `None`. -/
def int_to_intron_motif (n : Int) : Option String :=
  if n = 0 then some "non-canonical"
  else if n = 1 then some "GT/AG"
  else if n = 2 then some "CT/AC"
  else if n = 3 then some "GC/AG"
  else if n = 4 then some "CT/GC"
  else if n = 5 then some "AT/AC"
  else if n = 6 then some "GT/AT"
  else none

/-- A junction row with the given coordinates and read counts; the remaining
columns are fixed to arbitrary well-typed values, which `get_psis` never
reads. -/
def exRow (c : String) (a b : Int) (u m : Nat) : SJRow :=
  { chrom := c
    intron_start := a
    intron_stop := b
    strand := "+"
    intron_motif := "GT/AG"
    annotated := false
    unique_junction_reads := u
    multimap_junction_reads := m
    max_overhang := 10 }

/-- The three-row table of the worked example in the `get_psis` docstring
(source lines 121-127). -/
def exampleTable : List SJRow :=
  [exRow "chr1" 100 100 90 0, exRow "chr1" 100 200 10 0,
    exRow "chr1" 130 200 40 0]

/-- A one-row table whose counts pass both default thresholds. -/
def passTable : List SJRow := [exRow "chr1" 100 200 90 20]

/-- A one-row table whose counts pass neither default threshold. -/
def failTable : List SJRow := [exRow "chr2" 10 20 1 0]

/-- The row of `(get_psis passTable 5 10).2`, written out. -/
def passPsiRow : SJRowPsi :=
  { filt :=
      { base := exRow "chr1" 100 200 90 20
        multimap_junction_reads_filtered := some 20
        unique_junction_reads_filtered := some 90
        total_filtered_reads := some 110 }
    psi5_denominator := 110
    psi5 := PdFloat.num 1
    psi3_denominator := 110
    psi3 := PdFloat.num 1 }

/-- The row of `(get_psis failTable 5 10).2`, written out. -/
def failPsiRow : SJRowPsi :=
  { filt :=
      { base := exRow "chr2" 10 20 1 0
        multimap_junction_reads_filtered := none
        unique_junction_reads_filtered := none
        total_filtered_reads := none }
    psi5_denominator := 0
    psi5 := PdFloat.nan
    psi3_denominator := 0
    psi3 := PdFloat.nan }

/-! Helper lemmas. -/

/-- Unfolding lemma: dividing a missing cell gives `NaN`. -/
lemma pdDiv_none (d : ℚ) : pdDiv none d = PdFloat.nan := rfl

/-- Unfolding lemma for `pdDiv` on a present cell. -/
lemma pdDiv_some (q d : ℚ) :
    pdDiv (some q) d =
      if d = 0 then
        if q = 0 then PdFloat.nan
        else if 0 < q then PdFloat.posInf
        else PdFloat.negInf
      else PdFloat.num (q / d) := rfl

/-- A cell obtained by casting a natural count is non-negative. -/
lemma map_natCast_nonneg (o : Option Nat) (q : ℚ)
    (h : o.map (fun n => (n : ℚ)) = some q) : 0 ≤ q := by
  cases o with
  | none => exact absurd h (by simp)
  | some n =>
    have hn : (n : ℚ) = q := by simpa using h
    rw [← hn]
    exact Nat.cast_nonneg n

/-- Every present `total_filtered_reads` cell of the filtered frame is
non-negative. -/
lemma mutated_total_nonneg (sj : List SJRow) (mu mm : Int) :
    ∀ r ∈ addFilteredColumns sj mu mm, ∀ q,
      r.total_filtered_reads = some q → 0 ≤ q := by
  intro r hr q hq
  obtain ⟨r0, _, rfl⟩ := List.mem_map.mp hr
  exact map_natCast_nonneg _ q hq

/-- A group sum is non-negative when every present cell is. -/
lemma groupSum_nonneg (key : SJRowFiltered → String × Int)
    (tbl : List SJRowFiltered) (k : String × Int)
    (h : ∀ r ∈ tbl, ∀ q, r.total_filtered_reads = some q → 0 ≤ q) :
    0 ≤ groupSum key tbl k := by
  apply List.sum_nonneg
  intro x hx
  obtain ⟨r, hr, rfl⟩ := List.mem_map.mp hx
  have hmem := List.mem_of_mem_filter hr
  cases ht : r.total_filtered_reads with
  | none => simp [ht]
  | some q => simpa [ht] using h r hmem q ht

/-- A row's present total is at most the sum of its own group: the row sits in
the group named by its key and every other summand is non-negative. -/
lemma le_groupSum (key : SJRowFiltered → String × Int)
    (tbl : List SJRowFiltered)
    (hnn : ∀ r ∈ tbl, ∀ q, r.total_filtered_reads = some q → 0 ≤ q)
    (r : SJRowFiltered) (hr : r ∈ tbl) (q : ℚ)
    (hq : r.total_filtered_reads = some q) :
    q ≤ groupSum key tbl (key r) := by
  apply List.single_le_sum
  · intro x hx
    obtain ⟨s, hs, rfl⟩ := List.mem_map.mp hx
    have hmem := List.mem_of_mem_filter hs
    cases ht : s.total_filtered_reads with
    | none => simp [ht]
    | some p => simpa [ht] using hnn s hmem p ht
  · apply List.mem_map.mpr
    refine ⟨r, List.mem_filter.mpr ⟨hr, by simp⟩, by simp [hq]⟩

/-- A group in which every row's total is missing sums to `0`. -/
lemma groupSum_eq_zero (key : SJRowFiltered → String × Int)
    (tbl : List SJRowFiltered) (k : String × Int)
    (h : ∀ r ∈ tbl, key r = k → r.total_filtered_reads = none) :
    groupSum key tbl k = 0 := by
  apply List.sum_eq_zero
  intro x hx
  obtain ⟨r, hr, rfl⟩ := List.mem_map.mp hx
  have hmem := List.mem_filter.mp hr
  have hk : key r = k := by simpa using hmem.2
  rw [h r hmem.1 hk]
  rfl

/-- When the division of a row's total by its own group's sum produces a
number, that number lies in the unit interval. -/
lemma pdDiv_groupSum_unit (key : SJRowFiltered → String × Int)
    (m : List SJRowFiltered)
    (hnn : ∀ r ∈ m, ∀ q, r.total_filtered_reads = some q → 0 ≤ q)
    (r : SJRowFiltered) (hr : r ∈ m) (q : ℚ)
    (h : pdDiv r.total_filtered_reads (groupSum key m (key r)) = PdFloat.num q) :
    0 ≤ q ∧ q ≤ 1 := by
  cases ht : r.total_filtered_reads with
  | none => rw [ht, pdDiv_none] at h; exact absurd h (by simp)
  | some t =>
    rw [ht, pdDiv_some] at h
    by_cases hd : groupSum key m (key r) = 0
    · rw [if_pos hd] at h
      split_ifs at h
    · rw [if_neg hd] at h
      simp only [PdFloat.num.injEq] at h
      have ht0 : 0 ≤ t := hnn r hr t ht
      have hle : t ≤ groupSum key m (key r) := le_groupSum key m hnn r hr t ht
      have hd0 : 0 ≤ groupSum key m (key r) := groupSum_nonneg key m (key r) hnn
      have hdpos : 0 < groupSum key m (key r) := lt_of_le_of_ne hd0 (Ne.symm hd)
      subst h
      exact ⟨div_nonneg ht0 hd0, (div_le_one hdpos).mpr hle⟩

/-- Dividing a row's total by its own group's sum yields `NaN` when the sum is
zero or the total is missing, and never yields an infinity. -/
lemma pdDiv_groupSum_nan (key : SJRowFiltered → String × Int)
    (m : List SJRowFiltered)
    (hnn : ∀ r ∈ m, ∀ q, r.total_filtered_reads = some q → 0 ≤ q)
    (r : SJRowFiltered) (hr : r ∈ m) :
    ((groupSum key m (key r) = 0 ∨ r.total_filtered_reads = none) →
      pdDiv r.total_filtered_reads (groupSum key m (key r)) = PdFloat.nan)
    ∧ pdDiv r.total_filtered_reads (groupSum key m (key r)) ≠ PdFloat.posInf
    ∧ pdDiv r.total_filtered_reads (groupSum key m (key r)) ≠ PdFloat.negInf := by
  cases ht : r.total_filtered_reads with
  | none =>
    rw [pdDiv_none]
    exact ⟨fun _ => rfl, by simp, by simp⟩
  | some t =>
    rw [pdDiv_some]
    have ht0 : 0 ≤ t := hnn r hr t ht
    have hle : t ≤ groupSum key m (key r) := le_groupSum key m hnn r hr t ht
    by_cases hd : groupSum key m (key r) = 0
    · have htz : t = 0 := le_antisymm (hd ▸ hle) ht0
      rw [if_pos hd, if_pos htz]
      exact ⟨fun _ => rfl, by simp, by simp⟩
    · rw [if_neg hd]
      refine ⟨fun hcase => ?_, by simp, by simp⟩
      rcases hcase with hcase | hcase
      · exact absurd hcase hd
      · exact absurd hcase (by simp)

/-- `assignColumn` preserves column membership. -/
lemma mem_assignColumn (cols : List String) (c a : String) (h : a ∈ cols) :
    a ∈ assignColumn cols c := by
  unfold assignColumn
  split
  · exact h
  · exact List.mem_append_left _ h

/-! Claim theorems. -/

/-- Claim C1 (code_bug evidence): on the worked-example table with thresholds
(5, 10) the code produces `NaN` for every psi5 and psi3 value, because the
`Series.add` at lines 149-150 has no `fill_value` and every row's
multimap-filtered count is missing; the spec's sum semantics
(`get_psis_spec`) produce the values the claim and the function's own
doctest state: psi5 = [0.9, 0.1, 1.0] and psi3 = [1.0, 0.2, 0.8]. -/
theorem C1_worked_example_code_vs_spec :
    ((get_psis exampleTable 5 10).2.map SJRowPsi.psi5
        = [PdFloat.nan, PdFloat.nan, PdFloat.nan]
      ∧ (get_psis exampleTable 5 10).2.map SJRowPsi.psi3
        = [PdFloat.nan, PdFloat.nan, PdFloat.nan])
    ∧ ((get_psis_spec exampleTable 5 10).2.map SJRowPsi.psi5
        = [PdFloat.num (9/10), PdFloat.num (1/10), PdFloat.num 1]
      ∧ (get_psis_spec exampleTable 5 10).2.map SJRowPsi.psi3
        = [PdFloat.num 1, PdFloat.num (1/5), PdFloat.num (4/5)]) := by
  refine ⟨⟨?_, ?_⟩, ?_, ?_⟩ <;>
    norm_num [get_psis, get_psis_spec, addFilteredColumns, filterStep,
      filterStepSpec, filteredCount, seriesAdd, seriesAddSpec, groupSum,
      psiRow, key5, key3, pdDiv, exampleTable, exRow]

/-- Claim C2 (code_bug evidence): on the worked-example table, every row has
`unique_junction_reads >= 5` and `multimap_junction_reads < 10`, and the code
gives each a missing `total_filtered_reads` (lines 149-150 add without
`fill_value`), while the spec's semantics give the unique count — the value
the claim and the function's own doctest state. -/
theorem C2_total_filtered_reads_code_vs_spec :
    ((get_psis exampleTable 5 10).1.map SJRowFiltered.total_filtered_reads
        = [none, none, none])
    ∧ ((get_psis_spec exampleTable 5 10).1.map SJRowFiltered.total_filtered_reads
        = [some 90, some 10, some 40]) := by
  constructor <;>
    norm_num [get_psis, get_psis_spec, addFilteredColumns, filterStep,
      filterStepSpec, filteredCount, seriesAdd, seriesAddSpec,
      exampleTable, exRow]

/-- Claim C3 counterexample: `get_psis` is not pure.  The in-place column
assignments of lines 145-151 add three derived columns to the caller's frame:
the caller-visible column list after the call differs from the input schema,
and the caller's rows carry derived values (here the filtered unique counts),
which under the claim would exist only in the returned table. -/
theorem C3_counterexample_input_mutated :
    get_psis_inplace_columns COLUMN_NAMES ≠ COLUMN_NAMES
    ∧ (get_psis exampleTable 5 10).1.map
        SJRowFiltered.unique_junction_reads_filtered
        = [some 90, some 10, some 40] := by
  constructor
  · decide
  · norm_num [get_psis, addFilteredColumns, filterStep, filteredCount,
      seriesAdd, exampleTable, exRow]

/-- Claim C3 as amended: `get_psis` mutates the caller's table in place,
appending exactly the two filtered-count columns and `total_filtered_reads`
(lines 145-151); the original column values are preserved, and the
denominator and psi columns appear only in the returned table. -/
theorem C3_inplace_mutation_preserves_originals (sj : List SJRow)
    (mu mm : Int) :
    ((get_psis sj mu mm).1).map SJRowFiltered.base = sj
    ∧ get_psis_inplace_columns COLUMN_NAMES
        = COLUMN_NAMES ++ ["multimap_junction_reads_filtered",
            "unique_junction_reads_filtered", "total_filtered_reads"] := by
  constructor
  · simp [get_psis, addFilteredColumns, filterStep, List.map_map,
      Function.comp_def]
  · decide

/-- Claim C4: the returned table has exactly the rows of the input, in input
order, with every original field value preserved; filtering never removes a
row. -/
theorem C4_row_count_and_order_preserved (sj : List SJRow) (mu mm : Int) :
    ((get_psis sj mu mm).2).map (fun row => row.filt.base) = sj
    ∧ ((get_psis sj mu mm).2).length = sj.length := by
  constructor
  · simp [get_psis, addFilteredColumns, psiRow, filterStep, List.map_map,
      Function.comp_def]
  · simp [get_psis, addFilteredColumns]

/-- Claim C5: whenever a row's psi5 or psi3 is a number (not missing), it
lies in [0, 1]: the numerator is the row's own non-negative total and the
denominator is that total's group sum, which dominates it.  Proven for all
integer thresholds, so in particular the non-negative ones of the claim. -/
theorem C5_defined_psi_in_unit_interval (sj : List SJRow) (mu mm : Int)
    (row : SJRowPsi) (hrow : row ∈ (get_psis sj mu mm).2) (q : ℚ)
    (hq : row.psi5 = PdFloat.num q ∨ row.psi3 = PdFloat.num q) :
    0 ≤ q ∧ q ≤ 1 := by
  have hrow2 : row ∈ (addFilteredColumns sj mu mm).map
      (psiRow (addFilteredColumns sj mu mm)) := hrow
  obtain ⟨r, hr, hEq⟩ := List.mem_map.mp hrow2
  subst hEq
  cases hq with
  | inl h =>
    exact pdDiv_groupSum_unit key5 (addFilteredColumns sj mu mm)
      (mutated_total_nonneg sj mu mm) r hr q h
  | inr h =>
    exact pdDiv_groupSum_unit key3 (addFilteredColumns sj mu mm)
      (mutated_total_nonneg sj mu mm) r hr q h

/-- Claim C5 witness: the single row of `passTable` passes both default
thresholds and, being alone in both of its groups, has psi5 = 1. -/
theorem C5_defined_psi_in_unit_interval_witness : 0 ≤ (1 : ℚ) ∧ (1 : ℚ) ≤ 1 :=
  C5_defined_psi_in_unit_interval passTable 5 10 passPsiRow
    (by norm_num [get_psis, addFilteredColumns, filterStep, filteredCount,
      seriesAdd, groupSum, psiRow, key5, key3, pdDiv, passTable, exRow,
      passPsiRow])
    1 (Or.inl rfl)

/-- Claim C6 counterexample: `get_psis` performs no threshold validation.
Called with the negative thresholds `-1, -1`, where the claim demands an
`InvalidParameterError`, it completes normally: every count passes its
filter and the full result is produced.  (The source has no error branch at
all; the embedding is a total function.) -/
theorem C6_counterexample_negative_thresholds_accepted :
    (get_psis exampleTable (-1) (-1)).1.map SJRowFiltered.total_filtered_reads
      = [some 90, some 10, some 40]
    ∧ (get_psis exampleTable (-1) (-1)).2.length = 3 := by
  constructor
  · norm_num [get_psis, addFilteredColumns, filterStep, filteredCount,
      seriesAdd, exampleTable, exRow]
  · norm_num [get_psis, addFilteredColumns, exampleTable]

/-- Claim C6 as amended: `get_psis` does not validate its thresholds.  A
negative threshold is accepted and behaves as a filter every non-negative
count passes, so the computation completes with every `total_filtered_reads`
present and equal to the row's full read count; zero or below-threshold
counts never cause a failure (they only produce missing cells). -/
theorem C6_no_threshold_validation (sj : List SJRow) (mu mm : Int)
    (hmu : mu < 0) (hmm : mm < 0) :
    (get_psis sj mu mm).1.map SJRowFiltered.total_filtered_reads
      = sj.map (fun r =>
          some ((r.multimap_junction_reads + r.unique_junction_reads : Nat)
            : ℚ)) := by
  simp only [get_psis, addFilteredColumns, List.map_map]
  apply List.map_congr_left
  intro r _
  have h1 : mm ≤ (r.multimap_junction_reads : Int) :=
    le_trans hmm.le (Int.natCast_nonneg _)
  have h2 : mu ≤ (r.unique_junction_reads : Int) :=
    le_trans hmu.le (Int.natCast_nonneg _)
  simp [Function.comp_def, filterStep, filteredCount, seriesAdd, h1, h2]

/-- Claim C6 witness: the amended statement instantiated at the worked
example table with thresholds `-1, -1`. -/
theorem C6_no_threshold_validation_witness :
    (get_psis exampleTable (-1) (-1)).1.map SJRowFiltered.total_filtered_reads
      = exampleTable.map (fun r =>
          some ((r.multimap_junction_reads + r.unique_junction_reads : Nat)
            : ℚ)) :=
  C6_no_threshold_validation exampleTable (-1) (-1) (by norm_num)
    (by norm_num)

/-- Claim C7 counterexample: `get_psis` is not idempotent on its own output.
A first application to a frame with the input schema succeeds and yields the
augmented column list, but a second application to that output fails: the
`join` at line 164 finds the `psi5_denominator` column already present and
raises (pandas `ValueError: columns overlap`), instead of succeeding as the
claim states. -/
theorem C7_counterexample_reapplication_errors :
    get_psis_columns COLUMN_NAMES = Except.ok OUTPUT_COLUMN_NAMES
    ∧ get_psis_columns OUTPUT_COLUMN_NAMES
        = Except.error "columns overlap: psi5_denominator" := by
  exact ⟨rfl, rfl⟩

/-- Claim C7 as amended: applying `get_psis` to any frame that already has a
`psi5_denominator` column — in particular to an already-augmented output
table — fails at the first `join` with the column-overlap error; the derived
columns are not recomputed. -/
theorem C7_reapplication_fails (cols : List String)
    (h : "psi5_denominator" ∈ cols) :
    get_psis_columns cols
      = Except.error "columns overlap: psi5_denominator" := by
  have h1 : "psi5_denominator" ∈ get_psis_inplace_columns cols :=
    mem_assignColumn _ _ _ (mem_assignColumn _ _ _ (mem_assignColumn _ _ _ h))
  simp only [get_psis_columns, joinColumn, if_pos h1]
  rfl

/-- Claim C7 witness: the amended statement instantiated at the output
column list of a first application. -/
theorem C7_reapplication_fails_witness :
    get_psis_columns OUTPUT_COLUMN_NAMES
      = Except.error "columns overlap: psi5_denominator" :=
  C7_reapplication_fails OUTPUT_COLUMN_NAMES (by decide)

/-- Claim C8: a psi score whose denominator is zero or whose numerator
(total) is missing is `NaN`, never an error and never an infinity.  (A
missing denominator cannot occur: the groupby-sum always produces a number
and the join always matches, which the type of `psi5_denominator : ℚ`
records.)  Positive-over-zero infinity is unreachable because a row's total
never exceeds its own group's sum. -/
theorem C8_zero_or_missing_gives_nan (sj : List SJRow) (mu mm : Int)
    (row : SJRowPsi) (hrow : row ∈ (get_psis sj mu mm).2) :
    ((row.psi5_denominator = 0 ∨ row.filt.total_filtered_reads = none) →
        row.psi5 = PdFloat.nan)
    ∧ ((row.psi3_denominator = 0 ∨ row.filt.total_filtered_reads = none) →
        row.psi3 = PdFloat.nan)
    ∧ row.psi5 ≠ PdFloat.posInf ∧ row.psi3 ≠ PdFloat.posInf := by
  have hrow2 : row ∈ (addFilteredColumns sj mu mm).map
      (psiRow (addFilteredColumns sj mu mm)) := hrow
  obtain ⟨r, hr, hEq⟩ := List.mem_map.mp hrow2
  subst hEq
  have h5 := pdDiv_groupSum_nan key5 (addFilteredColumns sj mu mm)
    (mutated_total_nonneg sj mu mm) r hr
  have h3 := pdDiv_groupSum_nan key3 (addFilteredColumns sj mu mm)
    (mutated_total_nonneg sj mu mm) r hr
  exact ⟨h5.1, h3.1, h5.2.1, h3.2.1⟩

/-- Claim C8 witness: the single row of `failTable` passes neither default
threshold, so its total is missing and its psi5 is `NaN`. -/
theorem C8_zero_or_missing_gives_nan_witness :
    failPsiRow.psi5 = PdFloat.nan ∧ failPsiRow.psi3 = PdFloat.nan := by
  have h := C8_zero_or_missing_gives_nan failTable 5 10 failPsiRow
    (by norm_num [get_psis, addFilteredColumns, filterStep, filteredCount,
      seriesAdd, groupSum, psiRow, key5, key3, pdDiv, failTable, exRow,
      failPsiRow])
  exact ⟨h.1 (Or.inr rfl), h.2.1 (Or.inr rfl)⟩

/-- Claim C10: a group in which every row's total is missing gets the
denominator exactly `0` (pandas groupby-sum with the default `min_count=0`),
not a missing value, and every psi score in the group is `NaN`; nothing
fails. -/
theorem C10_all_missing_group_zero_denominator (sj : List SJRow)
    (mu mm : Int) (row : SJRowPsi) (hrow : row ∈ (get_psis sj mu mm).2) :
    ((∀ r ∈ (get_psis sj mu mm).1, key5 r = key5 row.filt →
          r.total_filtered_reads = none) →
        row.psi5_denominator = 0 ∧ row.psi5 = PdFloat.nan)
    ∧ ((∀ r ∈ (get_psis sj mu mm).1, key3 r = key3 row.filt →
          r.total_filtered_reads = none) →
        row.psi3_denominator = 0 ∧ row.psi3 = PdFloat.nan) := by
  have hrow2 : row ∈ (addFilteredColumns sj mu mm).map
      (psiRow (addFilteredColumns sj mu mm)) := hrow
  obtain ⟨r, hr, hEq⟩ := List.mem_map.mp hrow2
  subst hEq
  constructor
  · intro hall
    have hall2 : ∀ s ∈ addFilteredColumns sj mu mm, key5 s = key5 r →
        s.total_filtered_reads = none := hall
    have hnone : r.total_filtered_reads = none := hall2 r hr rfl
    refine ⟨groupSum_eq_zero key5 _ (key5 r) hall2, ?_⟩
    show pdDiv r.total_filtered_reads
      (groupSum key5 (addFilteredColumns sj mu mm) (key5 r)) = PdFloat.nan
    rw [hnone, pdDiv_none]
  · intro hall
    have hall2 : ∀ s ∈ addFilteredColumns sj mu mm, key3 s = key3 r →
        s.total_filtered_reads = none := hall
    have hnone : r.total_filtered_reads = none := hall2 r hr rfl
    refine ⟨groupSum_eq_zero key3 _ (key3 r) hall2, ?_⟩
    show pdDiv r.total_filtered_reads
      (groupSum key3 (addFilteredColumns sj mu mm) (key3 r)) = PdFloat.nan
    rw [hnone, pdDiv_none]

/-- Claim C10 witness: the single row of `failTable` forms an all-missing
group for both keys, so its denominators are `0` and its psi5 is `NaN`. -/
theorem C10_all_missing_group_zero_denominator_witness :
    failPsiRow.psi5_denominator = 0 ∧ failPsiRow.psi5 = PdFloat.nan := by
  have h := C10_all_missing_group_zero_denominator failTable 5 10 failPsiRow
    (by norm_num [get_psis, addFilteredColumns, filterStep, filteredCount,
      seriesAdd, groupSum, psiRow, key5, key3, pdDiv, failTable, exRow,
      failPsiRow])
  refine h.1 ?_
  intro r hr hk
  have hr2 : r = filterStep 5 10 (exRow "chr2" 10 20 1 0) := by
    simpa [get_psis, addFilteredColumns, failTable] using hr
  subst hr2
  rfl

/-- Claim C9 counterexample: an out-of-range motif code is not treated as an
error.  `int_to_intron_motif` falls through every branch at 7 and the Python
function returns `None` — a successful call with a missing label, which the
reader stores as a missing cell; no `SchemaError` is possible. -/
theorem C9_counterexample_out_of_range_silent : int_to_intron_motif 7 = none :=
  rfl

/-- Claim C9 as amended: the reader's translation maps 0-6 to the seven
labels exactly as the claim lists, and any out-of-range code — 7 or greater,
or negative — yields no label (`None`) without raising an error. -/
theorem C9_motif_translation (n : Int) :
    (7 ≤ n → int_to_intron_motif n = none)
    ∧ (n < 0 → int_to_intron_motif n = none)
    ∧ int_to_intron_motif 0 = some "non-canonical"
    ∧ int_to_intron_motif 1 = some "GT/AG"
    ∧ int_to_intron_motif 2 = some "CT/AC"
    ∧ int_to_intron_motif 3 = some "GC/AG"
    ∧ int_to_intron_motif 4 = some "CT/GC"
    ∧ int_to_intron_motif 5 = some "AT/AC"
    ∧ int_to_intron_motif 6 = some "GT/AT" := by
  refine ⟨?_, ?_, rfl, rfl, rfl, rfl, rfl, rfl, rfl⟩
  · intro h
    unfold int_to_intron_motif
    split_ifs <;> first | rfl | (exfalso; omega)
  · intro h
    unfold int_to_intron_motif
    split_ifs <;> first | rfl | (exfalso; omega)

/-- Claim C9 witness: the amended statement instantiated at code 100. -/
theorem C9_motif_translation_witness : int_to_intron_motif 100 = none :=
  (C9_motif_translation 100).1 (by norm_num)

end Sj2psi
